import Mathlib

/-!
Verification development for the `nepjol_article_fetcher` script (`fetch.py`).

The script is embedded shallowly:

* Parsed HTML documents (the output of `BeautifulSoup(html, "html.parser")`)
  are modelled by the `Node` tree below; the BeautifulSoup operations the
  script uses (`find_all`, `find` with a tag name and optional `class_`
  filter, `get_text(strip=True)`, attribute access, `has_attr`) are modelled
  as functions on that tree.  Matching and traversal order follow
  BeautifulSoup: matches are returned in document (pre-)order, and a
  `class_` filter matches either one of the element's classes or the
  space-joined class string.
* The network is an explicit environment mapping a request to either a
  `NetError` (a `requests.RequestException`: connection error, timeout, or an
  `HTTPError` raised by an earlier call) or a response carrying the HTTP
  status code and parsed body.  `response.raise_for_status()` raises exactly
  when `400 ≤ status < 600`; that branch is folded into each embedded
  function just where the script calls it.
* The local filesystem is an association list from filenames to contents;
  the two external facts `download_file` depends on (whether the streamed
  write raises, and what `os.path.exists` returns after the write loop) are
  fields of its environment.
* `urllib.parse.urljoin` is modelled for the subset the script exercises:
  an absolute `scheme://host/path` base and a reference that is absolute,
  network-path (`//…`), path-absolute (`/…`), or path-relative, with no
  query/fragment components and no dot segments.
-/

/-- A parsed HTML node: an element with tag name, the (already split)
multi-valued `class` attribute, the remaining attributes, and children; or a
text node. A whole document is the root `Node` (BeautifulSoup's `soup`
object), whose searches inspect its descendants. -/
inductive Node where
  | elem (tag : String) (classes : List String) (attrs : List (String × String)) (children : List Node)
  | text (s : String)

/-- BeautifulSoup `class_` filter semantics: a string filter matches an
element when it equals one of the element's classes or the space-joined
class string (so `class_ = "obj_galley_link pdf"` matches exactly the
elements whose class attribute reads `obj_galley_link pdf`). -/
def classMatch (query : String) (classes : List String) : Bool :=
  classes.contains query || String.intercalate " " classes == query

mutual
/-- All nodes of the subtree rooted at `n` (root included) matching `p`,
in document (pre-)order. -/
def matchingNodes (p : String → List String → Bool) : Node → List Node
  | .text _ => []
  | .elem t cs as ch =>
    (if p t cs then [Node.elem t cs as ch] else []) ++ matchingNodesList p ch

def matchingNodesList (p : String → List String → Bool) : List Node → List Node
  | [] => []
  | n :: ns => matchingNodes p n ++ matchingNodesList p ns
end

/-- BeautifulSoup `find_all` on a tag: matching descendants of `n`, in
document order (the tag itself is not its own descendant). -/
def findAll (p : String → List String → Bool) : Node → List Node
  | .text _ => []
  | .elem _ _ _ ch => matchingNodesList p ch

/-- BeautifulSoup `find`: the first matching descendant, if any. -/
def findFirst (p : String → List String → Bool) (n : Node) : Option Node :=
  (findAll p n).head?

/-- Attribute access `tag[name]` / `tag.get(name)`. -/
def getAttr (n : Node) (name : String) : Option String :=
  match n with
  | .text _ => none
  | .elem _ _ as _ => as.lookup name

/-- `tag.has_attr(name)`. -/
def hasAttr (n : Node) (name : String) : Bool := (getAttr n name).isSome

/-- Python `str.isspace` characters that can occur here (ASCII whitespace). -/
def pyIsSpace (c : Char) : Bool :=
  c = ' ' || c = '\t' || c = '\n' || c = '\r' || c = Char.ofNat 11 || c = Char.ofNat 12

/-- Python `str.strip()` on the character list. -/
def pyStripList (l : List Char) : List Char :=
  ((l.dropWhile pyIsSpace).reverse.dropWhile pyIsSpace).reverse

/-- Python `str.strip()`. -/
def pyStrip (s : String) : String := ⟨pyStripList s.data⟩

/-- Python `str.rstrip()` on the character list. -/
def pyRStripList (l : List Char) : List Char :=
  (l.reverse.dropWhile pyIsSpace).reverse

/-- Python `str.startswith`. -/
def pyStartsWith (s pre : String) : Bool := pre.data.isPrefixOf s.data

mutual
/-- The text fragments (strings of text nodes) of a subtree, in document
order — what BeautifulSoup's `get_text` concatenates. -/
def textFragments : Node → List String
  | .text s => [s]
  | .elem _ _ _ ch => textFragmentsList ch

def textFragmentsList : List Node → List String
  | [] => []
  | n :: ns => textFragments n ++ textFragmentsList ns
end

/-- `tag.get_text()`: concatenation of all text fragments. -/
def getText (n : Node) : String := String.join (textFragments n)

/-- `tag.get_text(strip=True)`: each fragment stripped, then concatenated
(the default separator is the empty string). -/
def getTextStrip (n : Node) : String := String.join ((textFragments n).map pyStrip)

/-- A `requests.RequestException`: connection failure, timeout, or the
`HTTPError` that `raise_for_status` raises for a 4xx/5xx status. -/
inductive NetError where
  | connectionError
  | timeout
  | httpError (code : Nat)
deriving DecidableEq, Repr

/-- A successful `requests.get` for an HTML page: final status code and the
parsed body (`BeautifulSoup(response.text, "html.parser")`). -/
structure HttpPage where
  status : Nat
  body : Node

/-- `response.raise_for_status()` raises exactly for 4xx/5xx codes. -/
def raisesForStatus (status : Nat) : Bool := 400 ≤ status && status < 600

/-- One article record as built by `search_nepjol` (dict with keys
`title`, `authors`, `link`, `source`). -/
structure ArticleSummary where
  title : String
  authors : String
  link : String
  source : String
deriving DecidableEq, Repr

def isSummaryDiv (tag : String) (classes : List String) : Bool :=
  tag == "div" && classMatch "obj_article_summary" classes

def isAnchor (tag : String) (_classes : List String) : Bool := tag == "a"

def isAuthorsDiv (tag : String) (classes : List String) : Bool :=
  tag == "div" && classMatch "authors" classes

def isSourceDiv (tag : String) (classes : List String) : Bool :=
  tag == "div" && classMatch "source" classes

def isViewerAnchor (tag : String) (classes : List String) : Bool :=
  tag == "a" && classMatch "obj_galley_link pdf" classes

def isDownloadAnchor (tag : String) (classes : List String) : Bool :=
  tag == "a" && classMatch "download" classes

/-- The per-block extraction of `search_nepjol` (fetch.py lines 72–91):
first anchor supplies title and href; `div.authors` and `div.source`
supply the other fields; every missing element falls back to its sentinel;
a root-relative href is made absolute by prefixing the site origin. -/
def parseSummary (result : Node) : ArticleSummary :=
  let link_tag := findFirst isAnchor result
  let title := match link_tag with
    | some t => getTextStrip t
    | none => "No title"
  let link0 := match link_tag with
    | some t => match getAttr t "href" with
      | some h => h
      | none => "No link"
    | none => "No link"
  let link := if pyStartsWith link0 "/" then "https://www.nepjol.info" ++ link0 else link0
  let authors := match findFirst isAuthorsDiv result with
    | some t => getTextStrip t
    | none => "No authors"
  let source := match findFirst isSourceDiv result with
    | some t => getTextStrip t
    | none => "Unknown source"
  ArticleSummary.mk title authors link source

/-- The network as `search_nepjol` sees it: the outcome of the GET to the
fixed search endpoint, keyed by the query string (the other request
parameters are constant empty filters). -/
structure SearchNet where
  response : String → Except NetError HttpPage

/-- `search_nepjol(query)` (fetch.py lines 35–107): GET the search endpoint,
raise for status, collect all `div.obj_article_summary` blocks and parse
each; any `RequestException` yields the empty list. -/
def search_nepjol (net : SearchNet) (query : String) : List ArticleSummary :=
  match net.response query with
  | .error _ => []
  | .ok page =>
    if raisesForStatus page.status then []
    else
      let results := findAll isSummaryDiv page.body
      if results.isEmpty then []
      else results.map parseSummary

/-- Is `needle` a contiguous sublist of the second list? -/
def listContains (needle : List Char) : List Char → Bool
  | [] => needle.isEmpty
  | c :: rest => needle.isPrefixOf (c :: rest) || listContains needle rest

/-- Does the string contain `pat` as a contiguous substring (Python's
`in` operator on strings)? -/
def strContains (s pat : String) : Bool := listContains pat.data s.data

/-- The components of an absolute `scheme://host/path` URL (no query or
fragment — the subset of `urllib.parse` the script exercises). -/
structure UrlParts where
  scheme : String
  host : String
  path : List Char

/-- Split a character list at its first `://`, returning what precedes and
follows it. -/
def splitScheme : List Char → Option (List Char × List Char)
  | [] => none
  | ':' :: '/' :: '/' :: rest => some ([], rest)
  | c :: rest =>
    match splitScheme rest with
    | some (sch, rem) => some (c :: sch, rem)
    | none => none

/-- Split an absolute URL into scheme, host and path, if it has the
`scheme://host[/path]` shape. -/
def parseAbsUrl (s : String) : Option UrlParts :=
  match splitScheme s.data with
  | some (sch, rest) =>
    let hostChars := rest.takeWhile (· ≠ '/')
    let pathChars := rest.dropWhile (· ≠ '/')
    some (UrlParts.mk ⟨sch⟩ ⟨hostChars⟩ pathChars)
  | none => none

/-- Everything up to and including the last `/` of a path (the directory
the RFC 3986 merge step keeps); `/` when the path has no slash. -/
def dirOfPath (path : List Char) : List Char :=
  let kept := (path.reverse.dropWhile (· ≠ '/')).reverse
  if kept.isEmpty then ['/'] else kept

/-- `urllib.parse.urljoin(base, url)` on the modelled subset: `base` is an
absolute `scheme://host/path` URL and `url` carries no query, fragment or
dot segments.  An absolute `url` wins outright; `//…` keeps only the base
scheme; `/…` replaces the whole path; a relative reference replaces the
last path segment. -/
def urljoin (base url : String) : String :=
  if url.isEmpty then base
  else if strContains url "://" then url
  else
    match parseAbsUrl base with
    | none => url
    | some p =>
      if pyStartsWith url "//" then p.scheme ++ ":" ++ url
      else if pyStartsWith url "/" then p.scheme ++ "://" ++ p.host ++ url
      else p.scheme ++ "://" ++ p.host ++ ⟨dirOfPath p.path⟩ ++ url

/-- The network as `find_pdf_link` and `download_file` see it: the outcome
of `requests.get` keyed by the requested URL. -/
structure Net where
  get : String → Except NetError HttpPage

/-- `find_pdf_link(article_url)` (fetch.py lines 155–198): fetch the article
page, find the `a.obj_galley_link.pdf` anchor, join its href against the
article URL, fetch that viewer page, find the `a.download` anchor, and join
its href against the viewer URL; every missing anchor or href and every
`RequestException` yields `none`. -/
def find_pdf_link (net : Net) (article_url : String) : Option String :=
  match net.get article_url with
  | .error _ => none
  | .ok page =>
    if raisesForStatus page.status then none
    else
      match findFirst isViewerAnchor page.body with
      | none => none
      | some tag =>
        match getAttr tag "href" with
        | none => none
        | some href =>
          let pdf_viewer_url := urljoin article_url href
          match net.get pdf_viewer_url with
          | .error _ => none
          | .ok vpage =>
            if raisesForStatus vpage.status then none
            else
              match findFirst isDownloadAnchor vpage.body with
              | none => none
              | some dtag =>
                match getAttr dtag "href" with
                | some dhref => some (urljoin pdf_viewer_url dhref)
                | none => none

/-- The local filesystem: filename-to-contents pairs, most recent write
first. -/
abbrev FileSys := List (String × String)

/-- Writing a file (`open(name, 'w'/'wb')` followed by the writes). -/
def fsWrite (fs : FileSys) (name contents : String) : FileSys :=
  (name, contents) :: fs

/-- A successful streamed `requests.get` for the download: final status,
response headers, and the body chunks of `iter_content`. -/
structure DlResponse where
  status : Nat
  headers : List (String × String)
  chunks : List String

/-- `response.headers.get('Content-Type', '')`. -/
def contentTypeOf (r : DlResponse) : String :=
  (r.headers.lookup "Content-Type").getD ""

/-- The environment of one `download_file` call: the transport outcome plus
the two facts that come from outside the script — whether the streamed
write loop raises, and what `os.path.exists` reports after it. -/
structure DlEnv where
  response : Except NetError DlResponse
  writeSucceeds : Bool
  existsAfterWrite : Bool

/-- `download_file(url, filename)` (fetch.py lines 200–239): fetch, raise
for status, refuse unless the Content-Type header contains
`application/pdf`, stream the chunks to the file, then report success only
if `os.path.exists(filename)`; every exception yields `False`. Returns the
boolean outcome and the filesystem after the call. -/
def download_file (env : DlEnv) (fs : FileSys) (filename : String) : Bool × FileSys :=
  match env.response with
  | .error _ => (false, fs)
  | .ok r =>
    if raisesForStatus r.status then (false, fs)
    else if !strContains (contentTypeOf r) "application/pdf" then (false, fs)
    else if !env.writeSucceeds then (false, fs)
    else
      let fs2 := fsWrite fs filename (String.join r.chunks)
      if env.existsAfterWrite then (true, fs2) else (false, fs2)

/-- A character the filename sanitizer keeps: `c.isalnum() or c in
(' ', '-', '_')`.  Python's `isalnum` is Unicode-aware; it is modelled on
the ASCII range, which is all the claims depend on. -/
def allowedNameChar (c : Char) : Bool :=
  c.isAlphanum || c = ' ' || c = '-' || c = '_'

/-- `"".join(c for c in s if c.isalnum() or c in (' ', '-', '_')).rstrip()`
(fetch.py lines 134 and 285). -/
def sanitizeName (s : String) : String :=
  ⟨pyRStripList (s.data.filter allowedNameChar)⟩

/-- The download target filename built from the selected article's title
(fetch.py lines 285–286). -/
def pdfFilename (title : String) : String := sanitizeName title ++ ".pdf"

/-- The `'='*60` separator line of the results file. -/
def sepLine : String := ⟨List.replicate 60 '='⟩

/-- The header line of the results file. -/
def headerLine (query : String) : String := "NepJol Search Results for: " ++ query

def authorsLabel : String := "   Authors: "

def sourceLabel : String := "   Source: "

def linkLabel : String := "   Link: "

/-- First line of record number `k`: `f"{i}. {result['title']}"`. -/
def recLine1 (k : Nat) (r : ArticleSummary) : String := (Nat.repr k ++ ". ") ++ r.title

def recLine2 (r : ArticleSummary) : String := authorsLabel ++ r.authors

def recLine3 (r : ArticleSummary) : String := sourceLabel ++ r.source

def recLine4 (r : ArticleSummary) : String := linkLabel ++ r.link

/-- The text the record loop of `save_to_file` writes (fetch.py lines
142–146), numbering from `k`. -/
def recordsText : Nat → List ArticleSummary → String
  | _, [] => ""
  | k, r :: rs =>
    recLine1 k r ++ "\n" ++ recLine2 r ++ "\n" ++ recLine3 r ++ "\n" ++
      recLine4 r ++ "\n\n" ++ recordsText (k + 1) rs

/-- The whole contents `save_to_file` writes: header line, separator line,
blank line, then the numbered records starting at 1. -/
def renderResults (results : List ArticleSummary) (query : String) : String :=
  (headerLine query ++ "\n") ++ (sepLine ++ "\n\n") ++ recordsText 1 results

/-- `save_to_file(results, query, filename=None)` (fetch.py lines 126–153):
an empty results list returns before any file is touched; otherwise the
missing filename defaults to one derived from the sanitized query and the
rendered results are written there. -/
def save_to_file (results : List ArticleSummary) (query : String)
    (filename : Option String) (fs : FileSys) : FileSys :=
  if results.isEmpty then fs
  else
    let fn := match filename with
      | some f => f
      | none => ("nepjol_results_" ++ sanitizeName query) ++ ".txt"
    fsWrite fs fn (renderResults results query)

/-- Split a character list at every newline (the line structure of the
results file; n newlines yield n+1 lines). -/
def splitNL : List Char → List (List Char)
  | [] => [[]]
  | c :: rest =>
    if c = '\n' then [] :: splitNL rest
    else
      match splitNL rest with
      | [] => [[c]]
      | l :: ls => (c :: l) :: ls

/-- A reader matching the record format: consume five lines per record
(title line numbered `k`, authors, source, link, blank), dropping each
line's fixed prefix. -/
def readRecords : Nat → List (List Char) → List ArticleSummary
  | k, l1 :: l2 :: l3 :: l4 :: _blank :: rest =>
    ArticleSummary.mk
      ⟨l1.drop (Nat.repr k ++ ". ").data.length⟩
      ⟨l2.drop authorsLabel.data.length⟩
      ⟨l4.drop linkLabel.data.length⟩
      ⟨l3.drop sourceLabel.data.length⟩
      :: readRecords (k + 1) rest
  | _, _ => []

/-- A reader matching `save_to_file`'s text-export format: skip the header,
separator and blank lines, then read the numbered records. -/
def readResultsFile (s : String) : List ArticleSummary :=
  match splitNL s.data with
  | _hdr :: _sep :: _blank :: rest => readRecords 1 rest
  | _ => []

/-- "Is an absolute URL" for the claims about link rewriting: carries an
explicit http(s) scheme. -/
def isAbsoluteUrl (s : String) : Bool :=
  pyStartsWith s "http://" || pyStartsWith s "https://"

def htmlDlResponse : DlResponse :=
  DlResponse.mk 200 [("Content-Type", "text/html")] ["not a pdf"]

def htmlDlEnv : DlEnv := DlEnv.mk (Except.ok htmlDlResponse) true true

def vanishedFileEnv : DlEnv :=
  DlEnv.mk (Except.ok (DlResponse.mk 200 [("Content-Type", "application/pdf")] ["pdfbytes"])) true false

def blankTitleAnchor : Node := Node.elem "a" [] [("href", "/x")] [Node.text "  "]

def blankTitleBlock : Node :=
  Node.elem "div" ["obj_article_summary"] [] [blankTitleAnchor]

/-- The href value `search_nepjol` starts from for one block: the first
anchor's `href`, or the sentinel when the anchor or attribute is missing. -/
def rawHref (b : Node) : String :=
  match findFirst isAnchor b with
  | some t =>
    match getAttr t "href" with
    | some h => h
    | none => "No link"
  | none => "No link"

/-- A results page whose only block links through a path-relative href
(no leading slash). -/
def relHrefDoc : Node :=
  Node.elem "[document]" [] [] [
    Node.elem "div" ["obj_article_summary"] [] [
      Node.elem "a" [] [("href", "articles/view/1")] [Node.text "Rel"]]]

def relHrefNet : SearchNet := SearchNet.mk fun _ => Except.ok (HttpPage.mk 200 relHrefDoc)

/-- A results page with one complete block and one block missing every
expected element. -/
def mixedResultsDoc : Node :=
  Node.elem "[document]" [] [] [
    Node.elem "div" ["obj_article_summary"] [] [
      Node.elem "a" [] [("href", "/index.php/art/1")] [Node.text " Title One "],
      Node.elem "div" ["authors"] [] [Node.text "A. Author"],
      Node.elem "div" ["source"] [] [Node.text "J. Source"]],
    Node.elem "div" ["obj_article_summary"] [] []]

def mixedResultsPage : HttpPage := HttpPage.mk 200 mixedResultsDoc

def mixedResultsNet : SearchNet := SearchNet.mk fun _ => Except.ok mixedResultsPage

def failingSearchNet : SearchNet := SearchNet.mk fun _ => Except.error NetError.timeout

def failingNet : Net := Net.mk fun _ => Except.error NetError.timeout

def viewerAnchor301 : Node :=
  Node.elem "a" ["obj_galley_link", "pdf"] [("href", "/view/1")] [Node.text "PDF"]

def viewerHopDoc301 : Node := Node.elem "[document]" [] [] [viewerAnchor301]

def downloadHopDoc301 : Node :=
  Node.elem "[document]" [] [] [
    Node.elem "a" ["download"] [("href", "/download/1/pdf")] [Node.text "Get"]]

/-- A network whose article page comes back with a non-2xx (301) status
whose body nonetheless carries the viewer anchor. -/
def redirect301Net : Net := Net.mk fun u =>
  if u = "https://site/a/1" then Except.ok (HttpPage.mk 301 viewerHopDoc301)
  else if u = "https://site/view/1" then Except.ok (HttpPage.mk 200 downloadHopDoc301)
  else Except.error NetError.connectionError

def viewerAnchorEx : Node :=
  Node.elem "a" ["obj_galley_link", "pdf"] [("href", "/view/1")] [Node.text "PDF"]

def viewerHopDocEx : Node := Node.elem "[document]" [] [] [viewerAnchorEx]

def downloadAnchorEx : Node :=
  Node.elem "a" ["download"] [("href", "/download/1/pdf")] [Node.text "Get"]

def downloadHopDocEx : Node := Node.elem "[document]" [] [] [downloadAnchorEx]

/-- No field of the record contains a newline (the side condition under
which the five-line record format is unambiguous). -/
def noNewlineRec (r : ArticleSummary) : Prop :=
  '\n' ∉ r.title.data ∧ '\n' ∉ r.authors.data
    ∧ '\n' ∉ r.source.data ∧ '\n' ∉ r.link.data

instance (r : ArticleSummary) : Decidable (noNewlineRec r) :=
  inferInstanceAs (Decidable (_ ∧ _ ∧ _ ∧ _))

/-- The lines the record loop emits, numbering from `k` (each record
contributes its four labelled lines and a blank line). -/
def recLines : Nat → List ArticleSummary → List (List Char)
  | _, [] => []
  | k, r :: rs =>
    (recLine1 k r).data :: (recLine2 r).data :: (recLine3 r).data
      :: (recLine4 r).data :: [] :: recLines (k + 1) rs

def roundtripSample : List ArticleSummary :=
  [ArticleSummary.mk "Title One" "A. B" "https://x/y" "Src J",
    ArticleSummary.mk "T2" "No authors" "No link" "Unknown source"]

/-! ## Theorems -/

/-- C10: calling `save_to_file` with an empty results list returns without
creating, opening, or writing any file — the filesystem is unchanged. -/
theorem save_to_file_empty_is_noop (query : String) (filename : Option String)
    (fs : FileSys) : save_to_file [] query filename fs = fs := rfl

/-- C4: `download_file` returns `False` and writes nothing to the
destination whenever the response's Content-Type header does not contain
`application/pdf`, regardless of the status code. -/
theorem download_file_refuses_non_pdf (env : DlEnv) (fs : FileSys)
    (filename : String) (r : DlResponse) (hok : env.response = Except.ok r)
    (hct : strContains (contentTypeOf r) "application/pdf" = false) :
    download_file env fs filename = (false, fs) := by
  unfold download_file
  rw [hok]
  by_cases h : raisesForStatus r.status <;> simp [h, hct]

theorem download_file_refuses_non_pdf_witness :
    htmlDlResponse.status = 200
    ∧ strContains (contentTypeOf htmlDlResponse) "application/pdf" = false
    ∧ download_file htmlDlEnv [] "out.pdf" = (false, []) :=
  ⟨rfl, by decide,
    download_file_refuses_non_pdf htmlDlEnv [] "out.pdf" htmlDlResponse rfl (by decide)⟩

/-- C5: `download_file` reports `True` only when the streamed write
completes and `os.path.exists` confirms the destination afterwards; when
the destination does not exist after the write loop it returns `False`. -/
theorem download_file_success_requires_file (env : DlEnv) (fs : FileSys)
    (filename : String) :
    ((download_file env fs filename).fst = true →
      env.writeSucceeds = true ∧ env.existsAfterWrite = true)
    ∧ (env.existsAfterWrite = false →
      (download_file env fs filename).fst = false) := by
  unfold download_file
  rcases henv : env.response with e | r
  · simp
  · by_cases h1 : raisesForStatus r.status <;>
      by_cases h2 : strContains (contentTypeOf r) "application/pdf" <;>
      by_cases h3 : env.writeSucceeds <;>
      by_cases h4 : env.existsAfterWrite <;>
      simp [h1, h2, h3, h4]

theorem download_file_success_requires_file_witness :
    vanishedFileEnv.existsAfterWrite = false
    ∧ (download_file vanishedFileEnv [] "a.pdf").fst = false :=
  ⟨rfl, (download_file_success_requires_file vanishedFileEnv [] "a.pdf").2 rfl⟩

/-- C7: the download filename is the title with every character outside the
allowed set (alphanumeric, space, hyphen, underscore) removed and trailing
whitespace stripped, followed by `.pdf`; every character of the part before
`.pdf` is from the allowed set. -/
theorem pdf_filename_sanitized (title : String) :
    pdfFilename title = sanitizeName title ++ ".pdf"
    ∧ sanitizeName title = ⟨pyRStripList (title.data.filter allowedNameChar)⟩
    ∧ (∀ c ∈ (sanitizeName title).data, allowedNameChar c = true) := by
  refine ⟨rfl, rfl, fun c hc => ?_⟩
  have hmem : c ∈ title.data.filter allowedNameChar := by
    have h1 : c ∈ pyRStripList (title.data.filter allowedNameChar) := hc
    unfold pyRStripList at h1
    rw [List.mem_reverse] at h1
    have h2 := (List.dropWhile_sublist (p := pyIsSpace)
      (l := (title.data.filter allowedNameChar).reverse)).subset h1
    rwa [List.mem_reverse] at h2
  exact List.of_mem_filter hmem

theorem pdf_filename_sanitized_witness :
    pdfFilename "My: Title? (2020) " = "My Title 2020" ++ ".pdf"
    ∧ 'M' ∈ (sanitizeName "My: Title? (2020) ").data
    ∧ allowedNameChar 'M' = true :=
  ⟨by decide, by decide,
    (pdf_filename_sanitized "My: Title? (2020) ").2.2 'M' (by decide)⟩

theorem dropWhile_eq_nil_of_all {α : Type} {p : α → Bool} :
    ∀ l : List α, (∀ c ∈ l, p c = true) → l.dropWhile p = []
  | [], _ => rfl
  | c :: l, h => by
    rw [List.dropWhile_cons_of_pos (h c (by simp))]
    exact dropWhile_eq_nil_of_all l (fun x hx => h x (by simp [hx]))

theorem pyStripList_eq_nil {l : List Char} (h : ∀ c ∈ l, pyIsSpace c = true) :
    pyStripList l = [] := by
  unfold pyStripList
  rw [dropWhile_eq_nil_of_all l h]
  rfl

/-- An all-whitespace subtree strips to the empty string. -/
theorem getTextStrip_eq_empty {a : Node}
    (h : ∀ c ∈ (getText a).data, pyIsSpace c = true) : getTextStrip a = "" := by
  unfold getTextStrip
  rw [String.join_eq]
  suffices hf : (((textFragments a).map pyStrip).map String.data).flatten = [] by
    rw [hf]
  rw [List.flatten_eq_nil_iff]
  intro l hl
  rw [List.mem_map] at hl
  obtain ⟨s, hs, rfl⟩ := hl
  rw [List.mem_map] at hs
  obtain ⟨t, ht, rfl⟩ := hs
  show pyStripList t.data = []
  apply pyStripList_eq_nil
  intro c hc
  apply h
  unfold getText
  rw [String.join_eq]
  show c ∈ ((textFragments a).map String.data).flatten
  exact List.mem_flatten.mpr ⟨t.data, List.mem_map_of_mem String.data ht, hc⟩

/-- C9: when the article-summary block has a first anchor, the entry's
title is that anchor's stripped visible text — so an empty or
whitespace-only anchor text gives the empty string, not the sentinel; the
`"No title"` branch is taken exactly when the block has no anchor. -/
theorem title_empty_for_blank_anchor_text (result : Node) :
    (∀ a, findFirst isAnchor result = some a →
      (parseSummary result).title = getTextStrip a
      ∧ ((∀ c ∈ (getText a).data, pyIsSpace c = true) →
        (parseSummary result).title = ""))
    ∧ (findFirst isAnchor result = none →
      (parseSummary result).title = "No title") := by
  constructor
  · intro a ha
    have ht : (parseSummary result).title = getTextStrip a := by
      simp only [parseSummary, ha]
    exact ⟨ht, fun hws => ht.trans (getTextStrip_eq_empty hws)⟩
  · intro ha
    simp only [parseSummary, ha]

theorem title_empty_for_blank_anchor_text_witness :
    (parseSummary blankTitleBlock).title = ""
    ∧ (parseSummary blankTitleBlock).title ≠ "No title" :=
  have h := ((title_empty_for_blank_anchor_text blankTitleBlock).1
    blankTitleAnchor rfl).2 (by decide)
  ⟨h, by rw [h]; decide⟩

theorem parseSummary_link_eq (b : Node) :
    (parseSummary b).link =
      if pyStartsWith (rawHref b) "/" then "https://www.nepjol.info" ++ rawHref b
      else rawHref b := by
  unfold parseSummary rawHref
  rcases h1 : findFirst isAnchor b with _ | t
  · simp [h1]
  · rcases h2 : getAttr t "href" with _ | href <;> simp [h1, h2]

theorem pyStartsWith_append (a b : String) : pyStartsWith (a ++ b) a = true := by
  unfold pyStartsWith
  rw [String.data_append, List.isPrefixOf_iff_prefix]
  exact List.prefix_append _ _

/-- When the search GET succeeds and does not raise, the parsed entries are
exactly the parses of the summary blocks, in document order. -/
theorem search_nepjol_ok (net : SearchNet) (query : String) (page : HttpPage)
    (hok : net.response query = Except.ok page)
    (hst : raisesForStatus page.status = false) :
    search_nepjol net query = (findAll isSummaryDiv page.body).map parseSummary := by
  unfold search_nepjol
  rw [hok]
  simp only [hst, Bool.false_eq_true, if_false]
  by_cases hempty : (findAll isSummaryDiv page.body).isEmpty
  · rw [List.isEmpty_iff.mp hempty]
    simp
  · simp [hempty]

/-- Every entry `search_nepjol` returns is the parse of some block. -/
theorem search_mem_parseSummary {net : SearchNet} {query : String}
    {e : ArticleSummary} (he : e ∈ search_nepjol net query) :
    ∃ b, e = parseSummary b := by
  unfold search_nepjol at he
  rcases hresp : net.response query with err | page <;> rw [hresp] at he
  · simp at he
  · by_cases hst : raisesForStatus page.status
    · simp [hst] at he
    · rw [Bool.not_eq_true] at hst
      simp only [hst, Bool.false_eq_true, if_false] at he
      by_cases hempty : (findAll isSummaryDiv page.body).isEmpty
      · simp [hempty] at he
      · simp only [hempty, if_false] at he
        obtain ⟨b, _, rfl⟩ := List.mem_map.mp he
        exact ⟨b, rfl⟩

/-- C2 (amended): a non-sentinel link is either the site origin prefixed to
a root-relative href, or the page's href verbatim — in which case it does
not start with `/`; hrefs that are relative without a leading slash are
passed through unrewitten, so such a link need not be absolute. -/
theorem search_link_origin_or_verbatim (net : SearchNet) (query : String)
    (e : ArticleSummary) (he : e ∈ search_nepjol net query)
    (_hs : e.link ≠ "No link") :
    pyStartsWith e.link "https://www.nepjol.info" = true
    ∨ pyStartsWith e.link "/" = false := by
  obtain ⟨b, rfl⟩ := search_mem_parseSummary he
  rw [parseSummary_link_eq]
  by_cases hp : pyStartsWith (rawHref b) "/"
  · rw [if_pos hp]
    exact Or.inl (pyStartsWith_append _ _)
  · rw [if_neg hp]
    exact Or.inr (by simpa using hp)

/-- C2 counterexample: the entry's link is the page's path-relative href
verbatim — not the sentinel, and not an absolute URL. -/
theorem search_link_not_absolute_cex :
    search_nepjol relHrefNet "q"
      = [ArticleSummary.mk "Rel" "No authors" "articles/view/1" "Unknown source"]
    ∧ ("articles/view/1" : String) ≠ "No link"
    ∧ isAbsoluteUrl "articles/view/1" = false :=
  ⟨by decide, by decide, by decide⟩

theorem search_link_origin_or_verbatim_witness :
    ArticleSummary.mk "Rel" "No authors" "articles/view/1" "Unknown source"
        ∈ search_nepjol relHrefNet "q"
    ∧ (pyStartsWith "articles/view/1" "https://www.nepjol.info" = true
      ∨ pyStartsWith "articles/view/1" "/" = false) :=
  ⟨by decide,
    search_link_origin_or_verbatim relHrefNet "q"
      (ArticleSummary.mk "Rel" "No authors" "articles/view/1" "Unknown source")
      (by decide) (by decide)⟩

/-- C3: for a successfully fetched results page with N summary blocks the
returned entries are the parses of those blocks in page order (so exactly N
entries, the empty sequence for N = 0), and a block missing its anchor,
href, authors element, or source element still yields an entry with the
corresponding sentinel rather than being dropped. -/
theorem search_extracts_every_block (net : SearchNet) (query : String)
    (page : HttpPage) (hok : net.response query = Except.ok page)
    (hst : raisesForStatus page.status = false) :
    search_nepjol net query = (findAll isSummaryDiv page.body).map parseSummary
    ∧ (search_nepjol net query).length = (findAll isSummaryDiv page.body).length
    ∧ (findAll isSummaryDiv page.body = [] → search_nepjol net query = [])
    ∧ (∀ b, findFirst isAnchor b = none →
        (parseSummary b).title = "No title" ∧ (parseSummary b).link = "No link")
    ∧ (∀ b a, findFirst isAnchor b = some a → getAttr a "href" = none →
        (parseSummary b).link = "No link")
    ∧ (∀ b, findFirst isAuthorsDiv b = none →
        (parseSummary b).authors = "No authors")
    ∧ (∀ b, findFirst isSourceDiv b = none →
        (parseSummary b).source = "Unknown source") := by
  have hmain := search_nepjol_ok net query page hok hst
  refine ⟨hmain, by rw [hmain]; simp, fun hnil => by rw [hmain, hnil]; rfl,
    fun b hb => ⟨by simp only [parseSummary, hb], ?_⟩, fun b a hb ha => ?_,
    fun b hb => by simp only [parseSummary, hb], fun b hb => by simp only [parseSummary, hb]⟩
  · have hraw : rawHref b = "No link" := by simp only [rawHref, hb]
    rw [parseSummary_link_eq, hraw]
    decide
  · have hraw : rawHref b = "No link" := by simp only [rawHref, hb, ha]
    rw [parseSummary_link_eq, hraw]
    decide

theorem search_extracts_every_block_witness :
    search_nepjol mixedResultsNet "q"
      = [ArticleSummary.mk "Title One" "A. Author"
          "https://www.nepjol.info/index.php/art/1" "J. Source",
        ArticleSummary.mk "No title" "No authors" "No link" "Unknown source"] :=
  ((search_extracts_every_block mixedResultsNet "q" mixedResultsPage rfl
    (by decide)).1).trans (by decide)

/-- C6 (amended): neither function propagates a failure: a
`RequestException` (connection error, timeout, or the `HTTPError` raised
for a 4xx/5xx status) at any stage yields `[]` from `search_nepjol` and
`none` from `find_pdf_link`, and a missing viewer anchor or missing href
yields `none`.  (A non-2xx status below 400 — e.g. a lingering 3xx — does
not raise and is parsed like a success.) -/
theorem pipeline_failures_absorbed (snet : SearchNet) (net : Net)
    (query article_url : String) :
    (∀ err, snet.response query = Except.error err →
      search_nepjol snet query = [])
    ∧ (∀ page, snet.response query = Except.ok page →
        raisesForStatus page.status = true → search_nepjol snet query = [])
    ∧ (∀ err, net.get article_url = Except.error err →
        find_pdf_link net article_url = none)
    ∧ (∀ page, net.get article_url = Except.ok page →
        raisesForStatus page.status = true → find_pdf_link net article_url = none)
    ∧ (∀ page, net.get article_url = Except.ok page →
        raisesForStatus page.status = false →
        findFirst isViewerAnchor page.body = none →
        find_pdf_link net article_url = none)
    ∧ (∀ page tag, net.get article_url = Except.ok page →
        raisesForStatus page.status = false →
        findFirst isViewerAnchor page.body = some tag →
        getAttr tag "href" = none → find_pdf_link net article_url = none)
    ∧ (∀ page tag href err, net.get article_url = Except.ok page →
        raisesForStatus page.status = false →
        findFirst isViewerAnchor page.body = some tag →
        getAttr tag "href" = some href →
        net.get (urljoin article_url href) = Except.error err →
        find_pdf_link net article_url = none)
    ∧ (∀ page tag href vpage, net.get article_url = Except.ok page →
        raisesForStatus page.status = false →
        findFirst isViewerAnchor page.body = some tag →
        getAttr tag "href" = some href →
        net.get (urljoin article_url href) = Except.ok vpage →
        raisesForStatus vpage.status = true →
        find_pdf_link net article_url = none) := by
  refine ⟨fun err h => ?_, fun page h hst => ?_, fun err h => ?_,
    fun page h hst => ?_, fun page h hst hv => ?_, fun page tag h hst hv ha => ?_,
    fun page tag href err h hst hv ha h2 => ?_,
    fun page tag href vpage h hst hv ha h2 hst2 => ?_⟩
  · unfold search_nepjol; rw [h]
  · unfold search_nepjol; rw [h]; simp [hst]
  · unfold find_pdf_link; rw [h]
  · unfold find_pdf_link; rw [h]; simp [hst]
  · unfold find_pdf_link; rw [h]; simp [hst, hv]
  · unfold find_pdf_link; rw [h]; simp [hst, hv, ha]
  · unfold find_pdf_link; rw [h]; simp [hst, hv, ha, h2]
  · unfold find_pdf_link; rw [h]; simp [hst, hv, ha, h2, hst2]

theorem pipeline_failures_absorbed_witness :
    search_nepjol failingSearchNet "q" = []
    ∧ find_pdf_link failingNet "https://site/a/1" = none :=
  ⟨(pipeline_failures_absorbed failingSearchNet failingNet "q"
      "https://site/a/1").1 NetError.timeout rfl,
    (pipeline_failures_absorbed failingSearchNet failingNet "q"
      "https://site/a/1").2.2.1 NetError.timeout rfl⟩

/-- C6 counterexample: a non-2xx status is not always absorbed into the
"nothing found" outcome — a 301 article-page response does not raise, its
body is parsed, and `find_pdf_link` returns a link instead of `none`. -/
theorem pipeline_non2xx_not_absorbed_cex :
    redirect301Net.get "https://site/a/1" = Except.ok (HttpPage.mk 301 viewerHopDoc301)
    ∧ ¬(200 ≤ 301 ∧ 301 < 300)
    ∧ find_pdf_link redirect301Net "https://site/a/1" = some "https://site/download/1/pdf" :=
  ⟨rfl, by decide, by decide⟩

/-- C1 (amended): when both hops succeed, `find_pdf_link` returns the
download anchor's href resolved against the viewer page's URL (itself the
viewer href resolved against the article URL) — for the example's
root-relative download href the join replaces the viewer path outright. -/
theorem find_pdf_link_joins_against_viewer (net : Net) (article_url : String)
    (page vpage : HttpPage) (tag dtag : Node) (href dhref : String)
    (h1 : net.get article_url = Except.ok page)
    (h2 : raisesForStatus page.status = false)
    (h3 : findFirst isViewerAnchor page.body = some tag)
    (h4 : getAttr tag "href" = some href)
    (h5 : net.get (urljoin article_url href) = Except.ok vpage)
    (h6 : raisesForStatus vpage.status = false)
    (h7 : findFirst isDownloadAnchor vpage.body = some dtag)
    (h8 : getAttr dtag "href" = some dhref) :
    find_pdf_link net article_url
      = some (urljoin (urljoin article_url href) dhref) := by
  unfold find_pdf_link
  rw [h1]
  simp [h2, h3, h4, h5, h6, h7, h8]

/-- The two-hop network of the claim's example: the article page at
`https://site/a/1` links to the viewer at `/view/1`; the viewer page at
`https://site/view/1` links to the download at `/download/1/pdf`. -/
def twoHopNet : Net := Net.mk fun u =>
  if u = "https://site/a/1" then Except.ok (HttpPage.mk 200 viewerHopDocEx)
  else if u = "https://site/view/1" then Except.ok (HttpPage.mk 200 downloadHopDocEx)
  else Except.error NetError.connectionError

theorem find_pdf_link_joins_against_viewer_witness :
    find_pdf_link twoHopNet "https://site/a/1"
      = some (urljoin (urljoin "https://site/a/1" "/view/1") "/download/1/pdf")
    ∧ urljoin (urljoin "https://site/a/1" "/view/1") "/download/1/pdf"
      = "https://site/download/1/pdf" :=
  ⟨find_pdf_link_joins_against_viewer twoHopNet "https://site/a/1"
      (HttpPage.mk 200 viewerHopDocEx) (HttpPage.mk 200 downloadHopDocEx)
      viewerAnchorEx downloadAnchorEx "/view/1" "/download/1/pdf"
      rfl (by decide) rfl rfl rfl (by decide) rfl rfl,
    by decide⟩

/-- C1 counterexample: on exactly the claim's example inputs the resolved
link is `https://site/download/1/pdf` — the root-relative download href
replaces the whole viewer path — not `https://site/view/download/1/pdf`. -/
theorem find_pdf_link_example_value_cex :
    find_pdf_link twoHopNet "https://site/a/1" = some "https://site/download/1/pdf"
    ∧ find_pdf_link twoHopNet "https://site/a/1" ≠ some "https://site/view/download/1/pdf" :=
  ⟨by decide, by decide⟩

theorem digitChar_ne_newline (m : Nat) : Nat.digitChar m ≠ '\n' := by
  rcases m with _|_|_|_|_|_|_|_|_|_|_|_|_|_|_|_|m
  iterate 16 decide
  unfold Nat.digitChar
  repeat rw [if_neg (by omega)]
  decide

theorem toDigitsCore_ne_newline :
    ∀ (fuel n : Nat) (ds : List Char), (∀ c ∈ ds, c ≠ '\n') →
      ∀ c ∈ Nat.toDigitsCore 10 fuel n ds, c ≠ '\n' := by
  intro fuel
  induction fuel with
  | zero =>
    intro n ds h c hc
    exact h c hc
  | succ f ih =>
    intro n ds h c hc
    unfold Nat.toDigitsCore at hc
    by_cases hz : n / 10 = 0
    · rw [if_pos hz] at hc
      rcases List.mem_cons.mp hc with rfl | hmem
      · exact digitChar_ne_newline _
      · exact h c hmem
    · rw [if_neg hz] at hc
      refine ih _ _ ?_ c hc
      intro x hx
      rcases List.mem_cons.mp hx with rfl | hmem
      · exact digitChar_ne_newline _
      · exact h x hmem

/-- The decimal rendering of a record number contains no newline. -/
theorem repr_ne_newline (k : Nat) : '\n' ∉ (Nat.repr k).data := by
  intro hmem
  exact toDigitsCore_ne_newline (k + 1) k [] (by simp) '\n' hmem rfl

theorem noNL_append {a b : List Char} (ha : '\n' ∉ a) (hb : '\n' ∉ b) :
    '\n' ∉ a ++ b := by
  intro h
  rcases List.mem_append.mp h with h | h
  · exact ha h
  · exact hb h

theorem data_newline : ("\n" : String).data = ['\n'] := rfl

theorem data_two_newlines : ("\n\n" : String).data = ['\n', '\n'] := rfl

theorem splitNL_cons_newline (l : List Char) :
    splitNL ('\n' :: l) = [] :: splitNL l := by
  simp [splitNL]

theorem splitNL_append (a b : List Char) (h : '\n' ∉ a) :
    splitNL (a ++ '\n' :: b) = a :: splitNL b := by
  induction a with
  | nil => exact splitNL_cons_newline b
  | cons c a ih =>
    have hc : c ≠ '\n' := fun e => h (by simp [e])
    rw [List.cons_append]
    show splitNL (c :: (a ++ '\n' :: b)) = (c :: a) :: splitNL b
    simp only [splitNL]
    rw [if_neg hc, ih (fun m => h (List.mem_cons_of_mem _ m))]

theorem noNL_recLine1 (k : Nat) (r : ArticleSummary) (h : noNewlineRec r) :
    '\n' ∉ (recLine1 k r).data := by
  unfold recLine1
  rw [String.data_append, String.data_append]
  exact noNL_append (noNL_append (repr_ne_newline k) (by decide)) h.1

theorem noNL_recLine2 (r : ArticleSummary) (h : noNewlineRec r) :
    '\n' ∉ (recLine2 r).data := by
  unfold recLine2
  rw [String.data_append]
  exact noNL_append (by decide) h.2.1

theorem noNL_recLine3 (r : ArticleSummary) (h : noNewlineRec r) :
    '\n' ∉ (recLine3 r).data := by
  unfold recLine3
  rw [String.data_append]
  exact noNL_append (by decide) h.2.2.1

theorem noNL_recLine4 (r : ArticleSummary) (h : noNewlineRec r) :
    '\n' ∉ (recLine4 r).data := by
  unfold recLine4
  rw [String.data_append]
  exact noNL_append (by decide) h.2.2.2

/-- Splitting the rendered record block at newlines recovers exactly the
record lines (plus the final empty line after the last blank line). -/
theorem splitNL_recordsText (rs : List ArticleSummary) :
    ∀ k, (∀ r ∈ rs, noNewlineRec r) →
      splitNL (recordsText k rs).data = recLines k rs ++ [[]] := by
  induction rs with
  | nil => intro k _; rfl
  | cons r rs ih =>
    intro k h
    have hr : noNewlineRec r := h r (by simp)
    have hrs : ∀ x ∈ rs, noNewlineRec x := fun x hx => h x (by simp [hx])
    show splitNL (recLine1 k r ++ "\n" ++ recLine2 r ++ "\n" ++ recLine3 r
      ++ "\n" ++ recLine4 r ++ "\n\n" ++ recordsText (k + 1) rs).data
      = recLines k (r :: rs) ++ [[]]
    simp only [String.data_append, data_newline, data_two_newlines,
      List.append_assoc, List.cons_append, List.nil_append]
    rw [splitNL_append _ _ (noNL_recLine1 k r hr),
      splitNL_append _ _ (noNL_recLine2 r hr),
      splitNL_append _ _ (noNL_recLine3 r hr),
      splitNL_append _ _ (noNL_recLine4 r hr),
      splitNL_cons_newline, ih (k + 1) hrs]
    rfl

/-- Reading the record lines back recovers the records. -/
theorem readRecords_recLines (rs : List ArticleSummary) :
    ∀ k, readRecords k (recLines k rs ++ [[]]) = rs := by
  induction rs with
  | nil => intro k; rfl
  | cons r rs ih =>
    intro k
    show readRecords k ((recLine1 k r).data :: (recLine2 r).data
      :: (recLine3 r).data :: (recLine4 r).data :: [] :: (recLines (k + 1) rs ++ [[]]))
      = r :: rs
    unfold readRecords
    have e1 : (recLine1 k r).data.drop (Nat.repr k ++ ". ").data.length = r.title.data := by
      unfold recLine1
      rw [String.data_append]
      exact List.drop_left _ _
    have e2 : (recLine2 r).data.drop authorsLabel.data.length = r.authors.data := by
      unfold recLine2
      rw [String.data_append]
      exact List.drop_left _ _
    have e3 : (recLine3 r).data.drop sourceLabel.data.length = r.source.data := by
      unfold recLine3
      rw [String.data_append]
      exact List.drop_left _ _
    have e4 : (recLine4 r).data.drop linkLabel.data.length = r.link.data := by
      unfold recLine4
      rw [String.data_append]
      exact List.drop_left _ _
    rw [e1, e2, e3, e4, ih (k + 1)]

/-- C8 (amended): writing a results sequence in the text-export format and
re-parsing it with a matching reader recovers count and all fields,
provided no field (and not the query) contains a newline character. -/
theorem save_format_roundtrip (query : String) (rs : List ArticleSummary)
    (hq : '\n' ∉ query.data) (hrs : ∀ r ∈ rs, noNewlineRec r) :
    readResultsFile (renderResults rs query) = rs := by
  unfold readResultsFile
  have hshape : (renderResults rs query).data
      = (headerLine query).data
        ++ '\n' :: (sepLine.data ++ '\n' :: '\n' :: (recordsText 1 rs).data) := by
    unfold renderResults
    simp only [String.data_append, data_newline, data_two_newlines,
      List.append_assoc, List.cons_append, List.nil_append]
  have hheadNL : '\n' ∉ (headerLine query).data := by
    unfold headerLine
    rw [String.data_append]
    exact noNL_append (by decide) hq
  rw [hshape, splitNL_append _ _ hheadNL,
    splitNL_append _ _ (by decide : '\n' ∉ sepLine.data),
    splitNL_cons_newline, splitNL_recordsText rs 1 hrs]
  exact readRecords_recLines rs 1

/-- C8 counterexample: with a newline inside a title the written file has
extra lines and re-parsing does not return the original sequence. -/
theorem save_format_roundtrip_cex :
    readResultsFile (renderResults [ArticleSummary.mk "a\nb" "x" "y" "z"] "q")
      ≠ [ArticleSummary.mk "a\nb" "x" "y" "z"] := by decide

theorem save_format_roundtrip_witness :
    readResultsFile (renderResults roundtripSample "astro") = roundtripSample :=
  save_format_roundtrip "astro" roundtripSample (by decide) (by decide)
